import Mathlib

/-!
Verification development for the embedded HTTP gateway of the redis-http
module (src/lib.rs). The Rust definitions are shallowly embedded: pure
functions become Lean functions; external effects (runtime construction,
socket binding, backend connections, outbound transport) become explicit
parameters recording the outcome of the effect; the process-wide mutable
statics become an explicit GatewayState record threaded through the
lifecycle functions. HashMap values are modelled as association lists
(iteration order of the Rust HashMap is unspecified; the list fixes one
order).
-/

namespace RedisHttp

/-- Substring helper: does the second list start with the first one?
Models byte-level matching of str::contains for ASCII patterns. -/
def leadsWith : List Char → List Char → Bool
  | [], _ => true
  | _ :: _, [] => false
  | a :: as, b :: bs => a = b && leadsWith as bs

/-- Substring occurrence test over char lists. -/
def hasSub (pat : List Char) : List Char → Bool
  | [] => pat.isEmpty
  | c :: rest => leadsWith pat (c :: rest) || hasSub pat rest

/-- str::contains for string arguments (the patterns used in lib.rs are
all ASCII, so char-level containment coincides with byte-level). -/
def containsStr (s pat : String) : Bool := hasSub pat.toList s.toList

/-- str::to_lowercase, modelled characterwise; it coincides with the Rust
Unicode lowercasing on the ASCII media-type tokens matched in lib.rs. -/
def rustToLower (s : String) : String := String.mk (s.toList.map Char.toLower)

/-- Response format enumeration (lib.rs lines 55-60). -/
inductive ResponseFormat where
  | Json
  | Xml
  | Text
deriving DecidableEq

/-- RedisResponse (lib.rs lines 28-33): result of the scalar GET route. -/
structure RedisResponse where
  success : Bool
  result : Option String
  error : Option String
deriving DecidableEq

/-- HashFieldResponse (lib.rs lines 35-40): result of the hash-field route. -/
structure HashFieldResponse where
  success : Bool
  value : Option String
  error : Option String
deriving DecidableEq

/-- HashAllResponse (lib.rs lines 42-47); the HashMap is modelled as an
association list. -/
structure HashAllResponse where
  success : Bool
  fields : Option (List (String × String))
  error : Option String
deriving DecidableEq

/-- detect_response_format (lib.rs lines 68-82). -/
def detect_response_format (accept_header : Option String) : ResponseFormat :=
  match accept_header with
  | some accept =>
    let accept_lower := rustToLower accept
    if containsStr accept_lower "application/xml" || containsStr accept_lower "text/xml" then
      ResponseFormat.Xml
    else if containsStr accept_lower "text/plain" then
      ResponseFormat.Text
    else if containsStr accept_lower "application/json" then
      ResponseFormat.Json
    else
      ResponseFormat.Json
  | none => ResponseFormat.Json

/-- Rust bool::to_string. -/
def boolToString (b : Bool) : String := if b then "true" else "false"

/-- Text escaping performed by quick_xml when writing a BytesText event. -/
def xmlEscapeChar (c : Char) : String :=
  if c = '<' then "&lt;"
  else if c = '>' then "&gt;"
  else if c = '&' then "&amp;"
  else if c = '\'' then "&apos;"
  else if c = '"' then "&quot;"
  else String.mk [c]

/-- Escape a whole text node. -/
def xmlEscape (s : String) : String := String.join (s.toList.map xmlEscapeChar)

/-- One XML element with an escaped text body, as emitted by the
Start/Text/End event triple in the formatters. -/
def xmlElem (tag content : String) : String :=
  "<" ++ tag ++ ">" ++ xmlEscape content ++ "</" ++ tag ++ ">"

/-- format_redis_response_xml (lib.rs lines 85-109). -/
def format_redis_response_xml (response : RedisResponse) : String :=
  "<response>"
  ++ xmlElem "success" (boolToString response.success)
  ++ (match response.result with
      | some result => xmlElem "result" result
      | none => "")
  ++ (match response.error with
      | some error => xmlElem "error" error
      | none => "")
  ++ "</response>"

/-- format_redis_response_text (lib.rs lines 112-126). -/
def format_redis_response_text (response : RedisResponse) : String :=
  if response.success then
    match response.result with
    | some result => result
    | none => "OK"
  else
    match response.error with
    | some error => "ERROR: " ++ error
    | none => "ERROR: Unknown error"

/-- format_hash_field_response_xml (lib.rs lines 129-153). -/
def format_hash_field_response_xml (response : HashFieldResponse) : String :=
  "<response>"
  ++ xmlElem "success" (boolToString response.success)
  ++ (match response.value with
      | some value => xmlElem "value" value
      | none => "")
  ++ (match response.error with
      | some error => xmlElem "error" error
      | none => "")
  ++ "</response>"

/-- format_hash_field_response_text (lib.rs lines 156-170). -/
def format_hash_field_response_text (response : HashFieldResponse) : String :=
  if response.success then
    match response.value with
    | some value => value
    | none => "OK"
  else
    match response.error with
    | some error => "ERROR: " ++ error
    | none => "ERROR: Unknown error"

/-- format_hash_all_response_xml (lib.rs lines 173-206). -/
def format_hash_all_response_xml (response : HashAllResponse) : String :=
  "<response>"
  ++ xmlElem "success" (boolToString response.success)
  ++ (match response.fields with
      | some fields =>
        "<fields>"
        ++ String.join (fields.map (fun kv =>
             "<field>" ++ xmlElem "key" kv.1 ++ xmlElem "value" kv.2 ++ "</field>"))
        ++ "</fields>"
      | none => "")
  ++ (match response.error with
      | some error => xmlElem "error" error
      | none => "")
  ++ "</response>"

/-- str::trim_end on the whitespace characters that can arise here. -/
def rustTrimEnd (s : String) : String :=
  String.mk ((s.toList.reverse.dropWhile Char.isWhitespace).reverse)

/-- format_hash_all_response_text (lib.rs lines 209-231). -/
def format_hash_all_response_text (response : HashAllResponse) : String :=
  if response.success then
    match response.fields with
    | some fields =>
      if fields.isEmpty then
        "OK"
      else
        rustTrimEnd (String.join (fields.map (fun kv => kv.1 ++ ": " ++ kv.2 ++ "\n")))
    | none => "OK"
  else
    match response.error with
    | some error => "ERROR: " ++ error
    | none => "ERROR: Unknown error"

/-- serde_json string escaping (the subset that can arise: quote,
backslash, control characters). -/
def jsonEscapeChar (c : Char) : String :=
  if c = '"' then "\\\""
  else if c = '\\' then "\\\\"
  else if c = '\n' then "\\n"
  else if c = '\r' then "\\r"
  else if c = '\t' then "\\t"
  else if c.toNat < 32 then
    "\\u00" ++ String.mk [Nat.digitChar (c.toNat / 16), Nat.digitChar (c.toNat % 16)]
  else String.mk [c]

/-- A JSON string literal. -/
def jsonStr (s : String) : String :=
  "\"" ++ String.join (s.toList.map jsonEscapeChar) ++ "\""

/-- serde serialization of an optional string field: absent values
serialize as null, not as an omitted key. -/
def jsonOptStr : Option String → String
  | some s => jsonStr s
  | none => "null"

/-- serde serialization of an optional string-to-string map. -/
def jsonOptMap : Option (List (String × String)) → String
  | some fields =>
    "\x7b" ++ String.intercalate "," (fields.map (fun kv => jsonStr kv.1 ++ ":" ++ jsonStr kv.2)) ++ "\x7d"
  | none => "null"

/-- serde_json output for RedisResponse (field order = declaration order). -/
def jsonRedisResponse (r : RedisResponse) : String :=
  "\x7b\"success\":" ++ boolToString r.success
  ++ ",\"result\":" ++ jsonOptStr r.result
  ++ ",\"error\":" ++ jsonOptStr r.error ++ "\x7d"

/-- serde_json output for HashFieldResponse. -/
def jsonHashFieldResponse (r : HashFieldResponse) : String :=
  "\x7b\"success\":" ++ boolToString r.success
  ++ ",\"value\":" ++ jsonOptStr r.value
  ++ ",\"error\":" ++ jsonOptStr r.error ++ "\x7d"

/-- serde_json output for HashAllResponse. -/
def jsonHashAllResponse (r : HashAllResponse) : String :=
  "\x7b\"success\":" ++ boolToString r.success
  ++ ",\"fields\":" ++ jsonOptMap r.fields
  ++ ",\"error\":" ++ jsonOptStr r.error ++ "\x7d"

/-- Value of one base64 alphabet character (standard alphabet). -/
def b64Val (c : Char) : Option Nat :=
  if 'A' ≤ c ∧ c ≤ 'Z' then some (c.toNat - 65)
  else if 'a' ≤ c ∧ c ≤ 'z' then some (c.toNat - 97 + 26)
  else if '0' ≤ c ∧ c ≤ '9' then some (c.toNat - 48 + 52)
  else if c = '+' then some 62
  else if c = '/' then some 63
  else none

/-- base64 STANDARD engine decode (canonical padding required, trailing
bits must be zero), as used by base64::engine::general_purpose::STANDARD
in auth_middleware. Input length must be a multiple of four. -/
def base64Decode : List Char → Option (List Nat)
  | [] => some []
  | c0 :: c1 :: c2 :: c3 :: rest =>
    match b64Val c0, b64Val c1 with
    | some v0, some v1 =>
      if c2 = '=' then
        if c3 = '=' ∧ rest = [] ∧ v1 % 16 = 0 then
          some [v0 * 4 + v1 / 16]
        else none
      else
        match b64Val c2 with
        | some v2 =>
          if c3 = '=' then
            if rest = [] ∧ v2 % 4 = 0 then
              some [v0 * 4 + v1 / 16, (v1 % 16) * 16 + v2 / 4]
            else none
          else
            match b64Val c3 with
            | some v3 =>
              match base64Decode rest with
              | some bs =>
                some ((v0 * 4 + v1 / 16) :: ((v1 % 16) * 16 + v2 / 4) :: ((v2 % 4) * 64 + v3) :: bs)
              | none => none
            | none => none
        | none => none
    | _, _ => none
  | _ => none

/-- Is a byte a UTF-8 continuation byte? -/
def isCont (b : Nat) : Bool := 128 ≤ b && b < 192

/-- UTF-8 decoding with full validity checking (rejecting overlong forms,
surrogates and out-of-range code points), as String::from_utf8 does. -/
def utf8Decode : List Nat → Option (List Char)
  | [] => some []
  | b0 :: rest =>
    if b0 < 128 then
      match utf8Decode rest with
      | some cs => some (Char.ofNat b0 :: cs)
      | none => none
    else if b0 < 194 then none
    else if b0 < 224 then
      match rest with
      | b1 :: rest2 =>
        if isCont b1 then
          match utf8Decode rest2 with
          | some cs => some (Char.ofNat ((b0 - 192) * 64 + (b1 - 128)) :: cs)
          | none => none
        else none
      | [] => none
    else if b0 < 240 then
      match rest with
      | b1 :: b2 :: rest3 =>
        if isCont b1 && isCont b2 then
          let cp := (b0 - 224) * 4096 + (b1 - 128) * 64 + (b2 - 128)
          if cp < 2048 then none
          else if 55296 ≤ cp ∧ cp < 57344 then none
          else
            match utf8Decode rest3 with
            | some cs => some (Char.ofNat cp :: cs)
            | none => none
        else none
      | _ => none
    else if b0 < 245 then
      match rest with
      | b1 :: b2 :: b3 :: rest4 =>
        if isCont b1 && isCont b2 && isCont b3 then
          let cp := (b0 - 240) * 262144 + (b1 - 128) * 4096 + (b2 - 128) * 64 + (b3 - 128)
          if cp < 65536 ∨ cp > 1114111 then none
          else
            match utf8Decode rest4 with
            | some cs => some (Char.ofNat cp :: cs)
            | none => none
        else none
      | _ => none
    else none

/-- str::split_once at the first colon. -/
def splitOnceColon : List Char → Option (List Char × List Char)
  | [] => none
  | c :: rest =>
    if c = ':' then some ([], rest)
    else
      match splitOnceColon rest with
      | some (pre, post) => some (c :: pre, post)
      | none => none

/-- Outcome of one backend connection attempt
(Client::open followed by get_connection). -/
inductive ConnAttempt where
  | ok
  | err (msg : String)
deriving DecidableEq

/-- Outcome of validate_redis_credentials: Ok(true), Ok(false) or
Err(msg) in the Rust Result type. -/
inductive ValidationResult where
  | allowed
  | denied
  | error (msg : String)
deriving DecidableEq

/-- The redis connection string built by validate_redis_credentials
(lib.rs lines 242-250): one format string per branch on the username. -/
def redisConnStr : Option String → String → String
  | some user, password => "redis://" ++ user ++ ":" ++ password ++ "@127.0.0.1:6379/0"
  | none, password => "redis://:" ++ password ++ "@127.0.0.1:6379/0"

/-- validate_redis_credentials (lib.rs lines 234-265). The global
REDIS_CLIENT slot is the clientPresent parameter; the effect of opening
a connection with a given connection string is the connect parameter. -/
def validate_redis_credentials (clientPresent : Bool) (connect : String → ConnAttempt)
    (username : Option String) (password : String) : ValidationResult :=
  if clientPresent then
    match connect (redisConnStr username password) with
    | ConnAttempt.ok => ValidationResult.allowed
    | ConnAttempt.err e =>
      if containsStr e "NOAUTH" || containsStr e "WRONGPASS" then
        ValidationResult.denied
      else
        ValidationResult.error ("Redis connection error: " ++ e)
  else
    ValidationResult.error "Redis client not initialized"

/-- Decision of the auth gate: pass the request through, or reject with
warp::reject::custom(AuthError). Every rejection path in the middleware
produces this same AuthError rejection. -/
inductive AuthDecision where
  | pass
  | reject
deriving DecidableEq

/-- str::starts_with, via char lists (the pattern Basic-space is ASCII,
so char-level and byte-level prefix tests coincide). -/
def strStartsWith (s pat : String) : Bool := leadsWith pat.toList s.toList

/-- Byte slicing of the header after the six ASCII bytes of the
Basic-space scheme tag, via char lists. -/
def strDrop (s : String) (n : Nat) : String := String.mk (s.toList.drop n)

/-- auth_middleware (lib.rs lines 268-291), parameterized over the
credential validator it defers to on a well-formed pair. -/
def auth_middleware (validate : Option String → String → ValidationResult) :
    Option String → AuthDecision
  | some header =>
    if strStartsWith header "Basic " then
      match base64Decode (strDrop header 6).toList with
      | some decoded =>
        match utf8Decode decoded with
        | some credentials =>
          match splitOnceColon credentials with
          | some (username, password) =>
            match validate (some (String.mk username)) (String.mk password) with
            | ValidationResult.allowed => AuthDecision.pass
            | ValidationResult.denied => AuthDecision.reject
            | ValidationResult.error _ => AuthDecision.reject
          | none => AuthDecision.reject
        | none => AuthDecision.reject
      | none => AuthDecision.reject
    else AuthDecision.reject
  | none => AuthDecision.reject

/-- The process-wide gateway state (the SERVER_STARTED, RUNTIME and
REDIS_CLIENT statics of lib.rs lines 62-65) made explicit, together with
the number of listener sockets currently bound. -/
structure GatewayState where
  started : Bool
  runtime : Option Unit
  redisClient : Option Unit
  boundListeners : Nat
deriving DecidableEq

/-- Outcome of start_http_server as seen by its caller. -/
inductive StartResult where
  | ok
  | err (msg : String)
deriving DecidableEq

/-- start_http_server (lib.rs lines 528-591). rtNew is the outcome of
Runtime::new; bindOk records whether the port bind inside the spawned
background task succeeds. On bind failure the warp server panics inside
that detached task: no listener ends up bound, but the function has
already stored the runtime, set the started flag and returned Ok, so the
failure never reaches the caller. -/
def start_http_server (rtNew : Except String Unit) (bindOk : Bool)
    (s : GatewayState) : StartResult × GatewayState :=
  if s.started then
    (StartResult.ok, s)
  else
    match rtNew with
    | Except.error e => (StartResult.err e, s)
    | Except.ok _ =>
      (StartResult.ok,
       { started := true
         runtime := some ()
         redisClient := s.redisClient
         boundListeners := s.boundListeners + (if bindOk then 1 else 0) })

/-- stop_http_server (lib.rs lines 594-597): only the flag is flipped. -/
def stop_http_server (s : GatewayState) : GatewayState :=
  { s with started := false }

/-- The module command error type: WrongArity or a string error. -/
inductive RedisErrorM where
  | wrongArity
  | str (msg : String)
deriving DecidableEq

/-- The module command value type (only simple strings are produced). -/
inductive RedisValueM where
  | simpleString (s : String)
deriving DecidableEq

/-- RedisResult: Result of RedisValue and RedisError. -/
abbrev RedisResultM := Except RedisErrorM RedisValueM

/-- http_server_start (lib.rs lines 600-605). -/
def http_server_start (rtNew : Except String Unit) (bindOk : Bool)
    (s : GatewayState) : RedisResultM × GatewayState :=
  match start_http_server rtNew bindOk s with
  | (StartResult.ok, s2) =>
    (Except.ok (RedisValueM.simpleString "HTTP server started on port 4887"), s2)
  | (StartResult.err e, s2) =>
    (Except.error (RedisErrorM.str ("Failed to start HTTP server: " ++ e)), s2)

/-- http_server_stop (lib.rs lines 608-611). -/
def http_server_stop (s : GatewayState) : RedisResultM × GatewayState :=
  (Except.ok (RedisValueM.simpleString "HTTP server stopped"), stop_http_server s)

/-- http_server_status (lib.rs lines 614-621): a read of the flag only. -/
def http_server_status (s : GatewayState) : RedisResultM :=
  Except.ok (RedisValueM.simpleString
    ("HTTP server status: " ++ (if s.started then "running" else "stopped")))

/-- A warp reply as produced by the three route handlers: either
warp::reply::json of a response value (content type application/json),
or a body with an explicit content-type header. -/
inductive Reply where
  | jsonBody (body : String)
  | withContentType (body : String) (contentType : String)
deriving DecidableEq

/-- The wire format a reply was encoded in. -/
def replyFormatTag : Reply → ResponseFormat
  | Reply.jsonBody _ => ResponseFormat.Json
  | Reply.withContentType _ ct =>
    if ct = "application/xml" then ResponseFormat.Xml else ResponseFormat.Text

/-- The format dispatch repeated in both query arms of redis_get
(lib.rs lines 317-330 and 339-352). -/
def scalarReply (response : RedisResponse) (accept_header : Option String) : Reply :=
  match detect_response_format accept_header with
  | ResponseFormat.Json => Reply.jsonBody (jsonRedisResponse response)
  | ResponseFormat.Xml =>
    Reply.withContentType (format_redis_response_xml response) "application/xml"
  | ResponseFormat.Text =>
    Reply.withContentType (format_redis_response_text response) "text/plain"

/-- The format dispatch of redis_hget (lib.rs lines 393-406, 415-428). -/
def hashFieldReply (response : HashFieldResponse) (accept_header : Option String) : Reply :=
  match detect_response_format accept_header with
  | ResponseFormat.Json => Reply.jsonBody (jsonHashFieldResponse response)
  | ResponseFormat.Xml =>
    Reply.withContentType (format_hash_field_response_xml response) "application/xml"
  | ResponseFormat.Text =>
    Reply.withContentType (format_hash_field_response_text response) "text/plain"

/-- The format dispatch of redis_hgetall (lib.rs lines 469-482, 491-504). -/
def hashAllReply (response : HashAllResponse) (accept_header : Option String) : Reply :=
  match detect_response_format accept_header with
  | ResponseFormat.Json => Reply.jsonBody (jsonHashAllResponse response)
  | ResponseFormat.Xml =>
    Reply.withContentType (format_hash_all_response_xml response) "application/xml"
  | ResponseFormat.Text =>
    Reply.withContentType (format_hash_all_response_text response) "text/plain"

/-- redis_get (lib.rs lines 300-373). clientPresent is the REDIS_CLIENT
slot; getConn the outcome of client.get_connection(); query the outcome
of the GET command on the established connection. -/
def redis_get (_key : String) (clientPresent : Bool) (getConn : Except String Unit)
    (query : Except String (Option String)) (accept_header : Option String) : Reply :=
  if clientPresent then
    match getConn with
    | Except.ok _ =>
      match query with
      | Except.ok value =>
        scalarReply { success := true, result := value, error := none } accept_header
      | Except.error e =>
        scalarReply { success := false, result := none, error := some ("Redis error: " ++ e) }
          accept_header
    | Except.error e =>
      Reply.jsonBody (jsonRedisResponse
        { success := false, result := none, error := some ("Connection error: " ++ e) })
  else
    Reply.jsonBody (jsonRedisResponse
      { success := false, result := none, error := some "Redis client not initialized" })

/-- redis_hget (lib.rs lines 376-449). -/
def redis_hget (_key _field : String) (clientPresent : Bool) (getConn : Except String Unit)
    (query : Except String (Option String)) (accept_header : Option String) : Reply :=
  if clientPresent then
    match getConn with
    | Except.ok _ =>
      match query with
      | Except.ok value =>
        hashFieldReply { success := true, value := value, error := none } accept_header
      | Except.error e =>
        hashFieldReply { success := false, value := none, error := some ("Redis error: " ++ e) }
          accept_header
    | Except.error e =>
      Reply.jsonBody (jsonHashFieldResponse
        { success := false, value := none, error := some ("Connection error: " ++ e) })
  else
    Reply.jsonBody (jsonHashFieldResponse
      { success := false, value := none, error := some "Redis client not initialized" })

/-- redis_hgetall (lib.rs lines 452-525). -/
def redis_hgetall (_key : String) (clientPresent : Bool) (getConn : Except String Unit)
    (query : Except String (List (String × String))) (accept_header : Option String) : Reply :=
  if clientPresent then
    match getConn with
    | Except.ok _ =>
      match query with
      | Except.ok fields =>
        hashAllReply { success := true, fields := some fields, error := none } accept_header
      | Except.error e =>
        hashAllReply { success := false, fields := none, error := some ("Redis error: " ++ e) }
          accept_header
    | Except.error e =>
      Reply.jsonBody (jsonHashAllResponse
        { success := false, fields := none, error := some ("Connection error: " ++ e) })
  else
    Reply.jsonBody (jsonHashAllResponse
      { success := false, fields := none, error := some "Redis client not initialized" })

/-- The HttpResponse struct returned by the outbound commands
(lib.rs lines 21-26). -/
structure HttpResponseM where
  status : Nat
  headers : List (String × String)
  body : String
deriving DecidableEq

/-- serde_json output for HttpResponse. -/
def jsonHttpResponse (r : HttpResponseM) : String :=
  "\x7b\"status\":" ++ toString r.status
  ++ ",\"headers\":" ++ jsonOptMap (some r.headers)
  ++ ",\"body\":" ++ jsonStr r.body ++ "\x7d"

/-- http_get (lib.rs lines 625-662). urlOk is Url::parse succeeding;
rtNew the outcome of Runtime::new; transport the blocking outbound GET. -/
def http_get (args : List String) (urlOk : String → Bool)
    (rtNew : Except String Unit)
    (transport : String → Except String HttpResponseM) : RedisResultM :=
  if args.length ≠ 2 then
    Except.error RedisErrorM.wrongArity
  else
    let url := args.getD 1 ""
    if ¬ urlOk url then
      Except.error (RedisErrorM.str "Invalid URL format")
    else
      match rtNew with
      | Except.error e => Except.error (RedisErrorM.str ("Failed to create runtime: " ++ e))
      | Except.ok _ =>
        match transport url with
        | Except.ok resp => Except.ok (RedisValueM.simpleString (jsonHttpResponse resp))
        | Except.error e => Except.error (RedisErrorM.str ("HTTP request failed: " ++ e))

/-- http_post (lib.rs lines 665-714). transport receives url, optional
body and optional content type. -/
def http_post (args : List String) (urlOk : String → Bool)
    (rtNew : Except String Unit)
    (transport : String → Option String → Option String → Except String HttpResponseM) :
    RedisResultM :=
  if args.length < 2 ∨ args.length > 4 then
    Except.error RedisErrorM.wrongArity
  else
    let url := args.getD 1 ""
    let body := if args.length > 2 then some (args.getD 2 "") else none
    let content_type :=
      if args.length > 3 then some (args.getD 3 "") else some "application/json"
    if ¬ urlOk url then
      Except.error (RedisErrorM.str "Invalid URL format")
    else
      match rtNew with
      | Except.error e => Except.error (RedisErrorM.str ("Failed to create runtime: " ++ e))
      | Except.ok _ =>
        match transport url body content_type with
        | Except.ok resp => Except.ok (RedisValueM.simpleString (jsonHttpResponse resp))
        | Except.error e => Except.error (RedisErrorM.str ("HTTP request failed: " ++ e))

/-- http_put (lib.rs lines 717-766): same shape as http_post. -/
def http_put (args : List String) (urlOk : String → Bool)
    (rtNew : Except String Unit)
    (transport : String → Option String → Option String → Except String HttpResponseM) :
    RedisResultM :=
  if args.length < 2 ∨ args.length > 4 then
    Except.error RedisErrorM.wrongArity
  else
    let url := args.getD 1 ""
    let body := if args.length > 2 then some (args.getD 2 "") else none
    let content_type :=
      if args.length > 3 then some (args.getD 3 "") else some "application/json"
    if ¬ urlOk url then
      Except.error (RedisErrorM.str "Invalid URL format")
    else
      match rtNew with
      | Except.error e => Except.error (RedisErrorM.str ("Failed to create runtime: " ++ e))
      | Except.ok _ =>
        match transport url body content_type with
        | Except.ok resp => Except.ok (RedisValueM.simpleString (jsonHttpResponse resp))
        | Except.error e => Except.error (RedisErrorM.str ("HTTP request failed: " ++ e))

/-- http_delete (lib.rs lines 769-806): same shape as http_get. -/
def http_delete (args : List String) (urlOk : String → Bool)
    (rtNew : Except String Unit)
    (transport : String → Except String HttpResponseM) : RedisResultM :=
  if args.length ≠ 2 then
    Except.error RedisErrorM.wrongArity
  else
    let url := args.getD 1 ""
    if ¬ urlOk url then
      Except.error (RedisErrorM.str "Invalid URL format")
    else
      match rtNew with
      | Except.error e => Except.error (RedisErrorM.str ("Failed to create runtime: " ++ e))
      | Except.ok _ =>
        match transport url with
        | Except.ok resp => Except.ok (RedisValueM.simpleString (jsonHttpResponse resp))
        | Except.error e => Except.error (RedisErrorM.str ("HTTP request failed: " ++ e))

/-- Content negotiation as worded by the specification (priority order
Xml, then Text, then Json, default Json), stated independently so it can
be compared with the source translation detect_response_format. -/
def negotiateSpec (accept_header : Option String) : ResponseFormat :=
  match accept_header with
  | none => ResponseFormat.Json
  | some accept =>
    let l := rustToLower accept
    if containsStr l "application/xml" || containsStr l "text/xml" then ResponseFormat.Xml
    else if containsStr l "text/plain" then ResponseFormat.Text
    else if containsStr l "application/json" then ResponseFormat.Json
    else ResponseFormat.Json

/-- Claim C4: for every optional Accept header value, content negotiation
returns Xml when the lowercased value contains application/xml or
text/xml, otherwise Text when it contains text/plain, otherwise Json when
it contains application/json, and Json in every remaining case including
an absent header; Xml takes precedence over Text and Text over Json when
several tokens occur in one value. -/
theorem C4_content_negotiation :
    (∀ a : Option String, detect_response_format a = negotiateSpec a) ∧
    detect_response_format none = ResponseFormat.Json ∧
    detect_response_format (some "text/plain, application/xml") = ResponseFormat.Xml ∧
    detect_response_format (some "application/json, text/plain") = ResponseFormat.Text ∧
    detect_response_format (some "Application/XML") = ResponseFormat.Xml ∧
    detect_response_format (some "text/html") = ResponseFormat.Json := by
  refine ⟨?_, by decide, by decide, by decide, by decide, by decide⟩
  intro a
  cases a <;> rfl

/-- Claim C5: for every failed result of any of the three shapes, the
text encoding is exactly the string ERROR-colon-space followed by the
message when the error is present, and exactly the fixed unknown-error
string when it is absent. -/
theorem C5_failed_text_encoding :
    ∀ (v : Option String) (f : Option (List (String × String))) (msg : String),
      format_redis_response_text { success := false, result := v, error := some msg }
        = "ERROR: " ++ msg ∧
      format_redis_response_text { success := false, result := v, error := none }
        = "ERROR: Unknown error" ∧
      format_hash_field_response_text { success := false, value := v, error := some msg }
        = "ERROR: " ++ msg ∧
      format_hash_field_response_text { success := false, value := v, error := none }
        = "ERROR: Unknown error" ∧
      format_hash_all_response_text { success := false, fields := f, error := some msg }
        = "ERROR: " ++ msg ∧
      format_hash_all_response_text { success := false, fields := f, error := none }
        = "ERROR: Unknown error" := by
  intro v f msg
  exact ⟨rfl, rfl, rfl, rfl, rfl, rfl⟩

/-- Claim C6: a successful scalar result with absent value and a
successful map result with absent or present-but-empty mapping all render
as OK in text form, not as an error; the present empty mapping is
distinguishable from the absent mapping in the structured formats, as an
empty fields element in XML only when the mapping is present, and as a
present empty JSON object rather than null. -/
theorem C6_empty_success_encoding :
    (∀ e : Option String,
      format_redis_response_text { success := true, result := none, error := e } = "OK") ∧
    (∀ e : Option String,
      format_hash_all_response_text { success := true, fields := none, error := e } = "OK") ∧
    (∀ e : Option String,
      format_hash_all_response_text { success := true, fields := some [], error := e } = "OK") ∧
    format_hash_all_response_xml { success := true, fields := some [], error := none }
      = "<response><success>true</success><fields></fields></response>" ∧
    format_hash_all_response_xml { success := true, fields := none, error := none }
      = "<response><success>true</success></response>" ∧
    jsonHashAllResponse { success := true, fields := some [], error := none }
      = "\x7b\"success\":true,\"fields\":\x7b\x7d,\"error\":null\x7d" ∧
    jsonHashAllResponse { success := true, fields := none, error := none }
      = "\x7b\"success\":true,\"fields\":null,\"error\":null\x7d" := by
  exact ⟨fun e => rfl, fun e => rfl, fun e => rfl, by decide, by decide, by decide, by decide⟩

/-- Claim C9: stop only flips the started flag; the runtime slot, the
store-connection slot and the set of bound listeners are untouched, a
subsequent status command reports stopped, and status is a function of
the flag alone. -/
theorem C9_stop_frame :
    ∀ s : GatewayState,
      (stop_http_server s).started = false ∧
      (stop_http_server s).runtime = s.runtime ∧
      (stop_http_server s).redisClient = s.redisClient ∧
      (stop_http_server s).boundListeners = s.boundListeners ∧
      http_server_status (stop_http_server s)
        = Except.ok (RedisValueM.simpleString "HTTP server status: stopped") ∧
      (http_server_stop s).1
        = Except.ok (RedisValueM.simpleString "HTTP server stopped") ∧
      http_server_status s
        = Except.ok (RedisValueM.simpleString
            ("HTTP server status: " ++ (if s.started then "running" else "stopped"))) := by
  intro s
  exact ⟨rfl, rfl, rfl, rfl, rfl, rfl, rfl⟩

/-- Claim C1 counterexample: an invocation of start on a fresh stopped
state in which the listener bind fails (port in use) still returns Ok to
its caller, sets the started flag and leaves no listener bound, so the
bind failure is not surfaced as a reported error from start. -/
theorem C1_bind_failure_counterexample :
    (start_http_server (Except.ok ()) false
       { started := false, runtime := none, redisClient := none, boundListeners := 0 }).1
      = StartResult.ok ∧
    (start_http_server (Except.ok ()) false
       { started := false, runtime := none, redisClient := none, boundListeners := 0 }).2.started
      = true ∧
    (start_http_server (Except.ok ()) false
       { started := false, runtime := none, redisClient := none, boundListeners := 0 }).2.boundListeners
      = 0 ∧
    (http_server_start (Except.ok ()) false
       { started := false, runtime := none, redisClient := none, boundListeners := 0 }).1
      = Except.ok (RedisValueM.simpleString "HTTP server started on port 4887") := by
  exact ⟨rfl, rfl, rfl, rfl⟩

/-- Claim C1 as amended: start reports an error to its caller exactly
when constructing the async runtime fails; the listener bind happens in
the detached background task after start has already stored the runtime
and set the flag, so a bind failure is never reported by start, which
returns success in that case. -/
theorem C1_start_error_reporting :
    ∀ (s : GatewayState) (bindOk : Bool) (e : String),
      s.started = false →
      (start_http_server (Except.error e) bindOk s).1 = StartResult.err e ∧
      (start_http_server (Except.error e) bindOk s).2 = s ∧
      (start_http_server (Except.ok ()) bindOk s).1 = StartResult.ok ∧
      http_server_start (Except.error e) bindOk s
        = (Except.error (RedisErrorM.str ("Failed to start HTTP server: " ++ e)), s) := by
  intro s bindOk e h
  refine ⟨?_, ?_, ?_, ?_⟩ <;> simp [start_http_server, http_server_start, h]

/-- Witness for the amended claim C1 at a concrete stopped state. -/
theorem C1_start_error_reporting_witness :
    (start_http_server (Except.error "permission denied") false
       { started := false, runtime := none, redisClient := none, boundListeners := 0 }).1
      = StartResult.err "permission denied" :=
  (C1_start_error_reporting
    { started := false, runtime := none, redisClient := none, boundListeners := 0 }
    false "permission denied" rfl).1

/-- Claim C2: start is idempotent; with the started flag already true it
returns success at once and leaves the state unchanged, for every
possible runtime-construction and bind outcome; two consecutive start
commands on a fresh state both return success and leave exactly one
listener bound. -/
theorem C2_start_idempotent :
    (∀ (s : GatewayState) (rtNew : Except String Unit) (bindOk : Bool),
      s.started = true → start_http_server rtNew bindOk s = (StartResult.ok, s)) ∧
    (∀ (s : GatewayState) (rtNew : Except String Unit) (bindOk : Bool),
      s.started = true →
        http_server_start rtNew bindOk s
          = (Except.ok (RedisValueM.simpleString "HTTP server started on port 4887"), s)) ∧
    (∀ (s : GatewayState) (rtNew2 : Except String Unit) (bindOk2 : Bool),
      s.started = false → s.boundListeners = 0 →
        (http_server_start (Except.ok ()) true s).1
          = Except.ok (RedisValueM.simpleString "HTTP server started on port 4887") ∧
        http_server_start rtNew2 bindOk2 (http_server_start (Except.ok ()) true s).2
          = (Except.ok (RedisValueM.simpleString "HTTP server started on port 4887"),
             (http_server_start (Except.ok ()) true s).2) ∧
        (http_server_start rtNew2 bindOk2 (http_server_start (Except.ok ()) true s).2).2.boundListeners
          = 1) := by
  refine ⟨?_, ?_, ?_⟩
  · intro s rtNew bindOk h
    simp [start_http_server, h]
  · intro s rtNew bindOk h
    simp [http_server_start, start_http_server, h]
  · intro s rtNew2 bindOk2 h h0
    refine ⟨?_, ?_, ?_⟩ <;>
      simp [http_server_start, start_http_server, h, h0]

/-- Witness for claim C2: a second start on an already-running concrete
state is a no-op, and two consecutive starts from a fresh state leave
exactly one listener. -/
theorem C2_start_idempotent_witness :
    start_http_server (Except.error "e") false
      { started := true, runtime := some (), redisClient := some (), boundListeners := 1 }
      = (StartResult.ok,
         { started := true, runtime := some (), redisClient := some (), boundListeners := 1 }) ∧
    (http_server_start (Except.ok ()) true
       (http_server_start (Except.ok ()) true
         { started := false, runtime := none, redisClient := some (), boundListeners := 0 }).2).2.boundListeners
      = 1 :=
  ⟨C2_start_idempotent.1
      { started := true, runtime := some (), redisClient := some (), boundListeners := 1 }
      (Except.error "e") false rfl,
   (C2_start_idempotent.2.2
      { started := false, runtime := none, redisClient := some (), boundListeners := 0 }
      (Except.ok ()) true rfl rfl).2.2⟩

/-- Claim C3: the auth gate rejects, with an outcome independent of the
credential validator and hence before any backend call, whenever the
Authorization header is missing, the scheme is not Basic, the payload is
not valid base64 or UTF-8, or the decoded payload has no colon; on a
well-formed pair it defers to the validator, passes exactly when the
validator allows, and the denied and error outcomes produce the same
rejection signal. -/
theorem C3_auth_gate :
    ∀ (validate : Option String → String → ValidationResult) (header : String),
      auth_middleware validate none = AuthDecision.reject ∧
      (strStartsWith header "Basic " = false →
        auth_middleware validate (some header) = AuthDecision.reject) ∧
      (base64Decode (strDrop header 6).toList = none →
        auth_middleware validate (some header) = AuthDecision.reject) ∧
      (∀ decoded, base64Decode (strDrop header 6).toList = some decoded →
        utf8Decode decoded = none →
        auth_middleware validate (some header) = AuthDecision.reject) ∧
      (∀ decoded credentials, base64Decode (strDrop header 6).toList = some decoded →
        utf8Decode decoded = some credentials →
        splitOnceColon credentials = none →
        auth_middleware validate (some header) = AuthDecision.reject) ∧
      (∀ decoded credentials username password,
        strStartsWith header "Basic " = true →
        base64Decode (strDrop header 6).toList = some decoded →
        utf8Decode decoded = some credentials →
        splitOnceColon credentials = some (username, password) →
        (auth_middleware validate (some header)
           = match validate (some (String.mk username)) (String.mk password) with
             | ValidationResult.allowed => AuthDecision.pass
             | ValidationResult.denied => AuthDecision.reject
             | ValidationResult.error _ => AuthDecision.reject) ∧
        (auth_middleware validate (some header) = AuthDecision.pass
           ↔ validate (some (String.mk username)) (String.mk password)
               = ValidationResult.allowed)) := by
  intro validate header
  refine ⟨rfl, ?_, ?_, ?_, ?_, ?_⟩
  · intro h
    simp only [auth_middleware]
    split
    · rename_i hcond
      rw [h] at hcond
      exact absurd hcond (by simp)
    · rfl
  · intro hd
    simp only [auth_middleware]
    split
    · simp only [hd]
    · rfl
  · intro d hd hu
    simp only [auth_middleware]
    split
    · simp only [hd, hu]
    · rfl
  · intro d c hd hu hs
    simp only [auth_middleware]
    split
    · simp only [hd, hu, hs]
    · rfl
  · intro d c u p hb hd hu hs
    have hmain : auth_middleware validate (some header)
        = match validate (some (String.mk u)) (String.mk p) with
          | ValidationResult.allowed => AuthDecision.pass
          | ValidationResult.denied => AuthDecision.reject
          | ValidationResult.error _ => AuthDecision.reject := by
      simp only [auth_middleware]
      split
      · simp only [hd, hu, hs]
      · rename_i hcond
        rw [hb] at hcond
        exact absurd rfl hcond
    refine ⟨hmain, ?_⟩
    rw [hmain]
    cases hv : validate (some (String.mk u)) (String.mk p) <;> simp

/-- Witness for claim C3 at concrete headers: a well-formed Basic header
for user-colon-pass passes under an all-allowing validator, the same
header rejects under an all-denying validator, and a missing header is
rejected. -/
theorem C3_auth_gate_witness :
    auth_middleware (fun _ _ => ValidationResult.allowed) (some "Basic dXNlcjpwYXNz")
      = AuthDecision.pass ∧
    auth_middleware (fun _ _ => ValidationResult.denied) (some "Basic dXNlcjpwYXNz")
      = AuthDecision.reject ∧
    auth_middleware (fun _ _ => ValidationResult.allowed) none = AuthDecision.reject := by
  have hA := (C3_auth_gate (fun _ _ => ValidationResult.allowed) "Basic dXNlcjpwYXNz").2.2.2.2.2
      [117, 115, 101, 114, 58, 112, 97, 115, 115]
      ['u', 's', 'e', 'r', ':', 'p', 'a', 's', 's'] ['u', 's', 'e', 'r'] ['p', 'a', 's', 's']
      (by decide) (by decide) (by decide) (by decide)
  have hD := (C3_auth_gate (fun _ _ => ValidationResult.denied) "Basic dXNlcjpwYXNz").2.2.2.2.2
      [117, 115, 101, 114, 58, 112, 97, 115, 115]
      ['u', 's', 'e', 'r', ':', 'p', 'a', 's', 's'] ['u', 's', 'e', 'r'] ['p', 'a', 's', 's']
      (by decide) (by decide) (by decide) (by decide)
  exact ⟨hA.1, hD.1, (C3_auth_gate (fun _ _ => ValidationResult.allowed) "x").1⟩

/-- Claim C10: a Basic payload that decodes to a string beginning with a
colon makes the gate call the validator with an empty-string username;
the validator then builds, character for character, the same connection
string as the password-only branch, so such a credential is accepted
exactly when the password alone authenticates against the backend. -/
theorem C10_empty_username :
    ∀ (clientPresent : Bool) (connect : String → ConnAttempt) (password : String),
      redisConnStr (some "") password = redisConnStr none password ∧
      validate_redis_credentials clientPresent connect (some "") password
        = validate_redis_credentials clientPresent connect none password ∧
      (∀ (validate : Option String → String → ValidationResult) (header : String)
         (decoded : List Nat) (rest : List Char),
        strStartsWith header "Basic " = true →
        base64Decode (strDrop header 6).toList = some decoded →
        utf8Decode decoded = some (':' :: rest) →
        auth_middleware validate (some header)
          = match validate (some "") (String.mk rest) with
            | ValidationResult.allowed => AuthDecision.pass
            | ValidationResult.denied => AuthDecision.reject
            | ValidationResult.error _ => AuthDecision.reject) := by
  intro clientPresent connect password
  have hconn : redisConnStr (some "") password = redisConnStr none password := by
    show "redis://" ++ "" ++ ":" ++ password ++ "@127.0.0.1:6379/0"
        = "redis://:" ++ password ++ "@127.0.0.1:6379/0"
    have h1 : "redis://" ++ "" ++ ":" = "redis://:" := by decide
    exact congrArg (fun pre => pre ++ password ++ "@127.0.0.1:6379/0") h1
  refine ⟨hconn, ?_, ?_⟩
  · simp only [validate_redis_credentials, hconn]
  · intro validate header decoded rest hb hd hu
    have hsplit : splitOnceColon (':' :: rest) = some ([], rest) := by
      simp [splitOnceColon]
    simp only [auth_middleware]
    split
    · simp only [hd, hu, hsplit]
    · rename_i hcond
      rw [hb] at hcond
      exact absurd rfl hcond

/-- Witness for claim C10: with the payload OnB3 (base64 of a
colon-then-pw string) the gate behaves like the validator on the empty
username, and the two connection strings coincide concretely. -/
theorem C10_empty_username_witness :
    redisConnStr (some "") "pw" = "redis://:pw@127.0.0.1:6379/0" ∧
    validate_redis_credentials true (fun _ => ConnAttempt.ok) (some "") "pw"
      = validate_redis_credentials true (fun _ => ConnAttempt.ok) none "pw" ∧
    auth_middleware (fun _ _ => ValidationResult.allowed) (some "Basic OnB3")
      = AuthDecision.pass := by
  have h := C10_empty_username true (fun _ => ConnAttempt.ok) "pw"
  have h3 := h.2.2 (fun _ _ => ValidationResult.allowed) "Basic OnB3"
      [58, 112, 119] ['p', 'w'] (by decide) (by decide) (by decide)
  exact ⟨by decide, h.2.1, by rw [h3]⟩

/-- The scalar handler encodes in the negotiated format once a
connection has been acquired. -/
lemma replyFormatTag_scalarReply (r : RedisResponse) (a : Option String) :
    replyFormatTag (scalarReply r a) = detect_response_format a := by
  cases h : detect_response_format a <;> simp [scalarReply, replyFormatTag, h]

/-- The hash-field handler encodes in the negotiated format once a
connection has been acquired. -/
lemma replyFormatTag_hashFieldReply (r : HashFieldResponse) (a : Option String) :
    replyFormatTag (hashFieldReply r a) = detect_response_format a := by
  cases h : detect_response_format a <;> simp [hashFieldReply, replyFormatTag, h]

/-- The hash-map handler encodes in the negotiated format once a
connection has been acquired. -/
lemma replyFormatTag_hashAllReply (r : HashAllResponse) (a : Option String) :
    replyFormatTag (hashAllReply r a) = detect_response_format a := by
  cases h : detect_response_format a <;> simp [hashAllReply, replyFormatTag, h]

/-- Claim C7: on each of the three routes, a missing connection factory
or a failed connection acquisition yields a failed result with an error
message encoded as JSON whatever the Accept header says; once a
connection is acquired, the negotiated format determines the encoding of
both the success and the backend-error outcome. -/
theorem C7_acquisition_failure_json :
    ∀ (key field : String) (accept : Option String) (e : String)
      (g : Except String Unit) (q : Except String (Option String))
      (qm : Except String (List (String × String)))
      (v : Option String) (fs : List (String × String)),
      redis_get key false g q accept
        = Reply.jsonBody (jsonRedisResponse
            { success := false, result := none, error := some "Redis client not initialized" }) ∧
      redis_hget key field false g q accept
        = Reply.jsonBody (jsonHashFieldResponse
            { success := false, value := none, error := some "Redis client not initialized" }) ∧
      redis_hgetall key false g qm accept
        = Reply.jsonBody (jsonHashAllResponse
            { success := false, fields := none, error := some "Redis client not initialized" }) ∧
      redis_get key true (Except.error e) q accept
        = Reply.jsonBody (jsonRedisResponse
            { success := false, result := none, error := some ("Connection error: " ++ e) }) ∧
      redis_hget key field true (Except.error e) q accept
        = Reply.jsonBody (jsonHashFieldResponse
            { success := false, value := none, error := some ("Connection error: " ++ e) }) ∧
      redis_hgetall key true (Except.error e) qm accept
        = Reply.jsonBody (jsonHashAllResponse
            { success := false, fields := none, error := some ("Connection error: " ++ e) }) ∧
      replyFormatTag (redis_get key true (Except.ok ()) (Except.ok v) accept)
        = detect_response_format accept ∧
      replyFormatTag (redis_get key true (Except.ok ()) (Except.error e) accept)
        = detect_response_format accept ∧
      replyFormatTag (redis_hget key field true (Except.ok ()) (Except.ok v) accept)
        = detect_response_format accept ∧
      replyFormatTag (redis_hget key field true (Except.ok ()) (Except.error e) accept)
        = detect_response_format accept ∧
      replyFormatTag (redis_hgetall key true (Except.ok ()) (Except.ok fs) accept)
        = detect_response_format accept ∧
      replyFormatTag (redis_hgetall key true (Except.ok ()) (Except.error e) accept)
        = detect_response_format accept := by
  intro key field accept e g q qm v fs
  refine ⟨rfl, rfl, rfl, rfl, rfl, rfl, ?_, ?_, ?_, ?_, ?_, ?_⟩
  · exact replyFormatTag_scalarReply _ _
  · exact replyFormatTag_scalarReply _ _
  · exact replyFormatTag_hashFieldReply _ _
  · exact replyFormatTag_hashFieldReply _ _
  · exact replyFormatTag_hashAllReply _ _
  · exact replyFormatTag_hashAllReply _ _

/-- http_get returns the dedicated arity error exactly when the argument
count differs from two, for every url validator, runtime outcome and
transport. -/
lemma http_get_wrongArity_iff (args : List String) (urlOk : String → Bool)
    (rtNew : Except String Unit) (t : String → Except String HttpResponseM) :
    http_get args urlOk rtNew t = Except.error RedisErrorM.wrongArity ↔ args.length ≠ 2 := by
  constructor
  · intro hres
    intro hlen
    simp only [http_get] at hres
    rw [if_neg (show ¬ (args.length ≠ 2) by omega)] at hres
    split at hres <;> try simp at hres
    split at hres <;> try simp at hres
    split at hres <;> simp at hres
  · intro hlen
    simp [http_get, hlen]

/-- Same statement for http_delete. -/
lemma http_delete_wrongArity_iff (args : List String) (urlOk : String → Bool)
    (rtNew : Except String Unit) (t : String → Except String HttpResponseM) :
    http_delete args urlOk rtNew t = Except.error RedisErrorM.wrongArity ↔ args.length ≠ 2 := by
  constructor
  · intro hres
    intro hlen
    simp only [http_delete] at hres
    rw [if_neg (show ¬ (args.length ≠ 2) by omega)] at hres
    split at hres <;> try simp at hres
    split at hres <;> try simp at hres
    split at hres <;> simp at hres
  · intro hlen
    simp [http_delete, hlen]

/-- http_post returns the dedicated arity error exactly when the count
is below two or above four. -/
lemma http_post_wrongArity_iff (args : List String) (urlOk : String → Bool)
    (rtNew : Except String Unit)
    (t : String → Option String → Option String → Except String HttpResponseM) :
    http_post args urlOk rtNew t = Except.error RedisErrorM.wrongArity
      ↔ (args.length < 2 ∨ args.length > 4) := by
  constructor
  · intro hres
    by_contra hlen
    simp only [http_post] at hres
    rw [if_neg hlen] at hres
    split at hres <;> try simp at hres
    split at hres <;> try simp at hres
    split at hres <;> simp at hres
  · intro hlen
    simp [http_post, hlen]

/-- Same statement for http_put. -/
lemma http_put_wrongArity_iff (args : List String) (urlOk : String → Bool)
    (rtNew : Except String Unit)
    (t : String → Option String → Option String → Except String HttpResponseM) :
    http_put args urlOk rtNew t = Except.error RedisErrorM.wrongArity
      ↔ (args.length < 2 ∨ args.length > 4) := by
  constructor
  · intro hres
    by_contra hlen
    simp only [http_put] at hres
    rw [if_neg hlen] at hres
    split at hres <;> try simp at hres
    split at hres <;> try simp at hres
    split at hres <;> simp at hres
  · intro hlen
    simp [http_put, hlen]

/-- Claim C8: the outbound commands check arity first, with the arity
error exactly on a count other than two for HTTP.GET and HTTP.DELETE and
outside two-to-four for HTTP.POST and HTTP.PUT, independent of argument
content; with correct arity and an argument that does not parse as a
URL, the Invalid URL format error is returned and no outbound call is
attempted, for every transport. -/
theorem C8_arity_and_url :
    ∀ (args : List String) (urlOk : String → Bool) (rtNew : Except String Unit)
      (tGet tDel : String → Except String HttpResponseM)
      (tPost tPut : String → Option String → Option String → Except String HttpResponseM),
      (http_get args urlOk rtNew tGet = Except.error RedisErrorM.wrongArity
         ↔ args.length ≠ 2) ∧
      (http_delete args urlOk rtNew tDel = Except.error RedisErrorM.wrongArity
         ↔ args.length ≠ 2) ∧
      (http_post args urlOk rtNew tPost = Except.error RedisErrorM.wrongArity
         ↔ (args.length < 2 ∨ args.length > 4)) ∧
      (http_put args urlOk rtNew tPut = Except.error RedisErrorM.wrongArity
         ↔ (args.length < 2 ∨ args.length > 4)) ∧
      (args.length = 2 → urlOk (args.getD 1 "") = false →
         http_get args urlOk rtNew tGet = Except.error (RedisErrorM.str "Invalid URL format") ∧
         http_delete args urlOk rtNew tDel
           = Except.error (RedisErrorM.str "Invalid URL format")) ∧
      (2 ≤ args.length → args.length ≤ 4 → urlOk (args.getD 1 "") = false →
         http_post args urlOk rtNew tPost
           = Except.error (RedisErrorM.str "Invalid URL format") ∧
         http_put args urlOk rtNew tPut
           = Except.error (RedisErrorM.str "Invalid URL format")) := by
  intro args urlOk rtNew tGet tDel tPost tPut
  refine ⟨http_get_wrongArity_iff args urlOk rtNew tGet,
          http_delete_wrongArity_iff args urlOk rtNew tDel,
          http_post_wrongArity_iff args urlOk rtNew tPost,
          http_put_wrongArity_iff args urlOk rtNew tPut, ?_, ?_⟩
  · intro hlen hurl
    have hu : ¬ (urlOk (args.getD 1 "") = true) := by
      rw [hurl]
      decide
    constructor
    · simp only [http_get]
      rw [if_neg (show ¬ (args.length ≠ 2) by omega), if_pos hu]
    · simp only [http_delete]
      rw [if_neg (show ¬ (args.length ≠ 2) by omega), if_pos hu]
  · intro h2 h4 hurl
    have hu : ¬ (urlOk (args.getD 1 "") = true) := by
      rw [hurl]
      decide
    constructor
    · simp only [http_post]
      rw [if_neg (show ¬ (args.length < 2 ∨ args.length > 4) by omega), if_pos hu]
    · simp only [http_put]
      rw [if_neg (show ¬ (args.length < 2 ∨ args.length > 4) by omega), if_pos hu]

/-- Witness for claim C8: HTTP.POST with five arguments gives the arity
error whatever the arguments hold, and HTTP.GET with correct arity but a
rejected URL gives the Invalid URL format error with the transport never
consulted. -/
theorem C8_arity_and_url_witness :
    http_post ["HTTP.POST", "u", "b", "c", "d"] (fun _ => true) (Except.ok ())
        (fun _ _ _ => Except.error "unused")
      = Except.error RedisErrorM.wrongArity ∧
    http_get ["HTTP.GET", "nota url"] (fun _ => false) (Except.ok ())
        (fun _ => Except.error "unused")
      = Except.error (RedisErrorM.str "Invalid URL format") := by
  have h := C8_arity_and_url ["HTTP.POST", "u", "b", "c", "d"] (fun _ => true) (Except.ok ())
      (fun _ => Except.error "unused") (fun _ => Except.error "unused")
      (fun _ _ _ => Except.error "unused") (fun _ _ _ => Except.error "unused")
  have h2 := C8_arity_and_url ["HTTP.GET", "nota url"] (fun _ => false) (Except.ok ())
      (fun _ => Except.error "unused") (fun _ => Except.error "unused")
      (fun _ _ _ => Except.error "unused") (fun _ _ _ => Except.error "unused")
  exact ⟨(h.2.2.1).mpr (by decide), (h2.2.2.2.2.1 rfl rfl).1⟩

end RedisHttp
